import Mathlib

/-!
Verification of the disk-image backup orchestrator (`backup.py`) against its
natural-language specification.

The Python program is shallowly embedded: every impure observation the program
makes (a `datetime.now()` sample, an `os.path.isdir` / `os.path.exists` check,
the outcome of a `subprocess.run` invocation, the directory listing) is an
explicit input, supplied per call site through environment records, and every
effect the program performs (sending an alert email, invoking the imaging
subprocess, removing a file, the process exit status) is returned as data.
Quote characters that the Python source interpolates around values inside its
German message strings are rendered with escape codes.  `os.path.join` is
modelled as concatenation with a slash separator, which agrees with the
Python function on separator-free directory arguments as used here.
-/

namespace BackupScript

/-- Result of one `datetime.now()` sample, with the fields the program reads:
calendar month and year (for `strftime "%m%Y"`), the day of the week
(for `strftime "%A"`, 0 = Monday .. 6 = Sunday as in Python), and absolute
POSIX time in seconds (for age comparison against file mtimes). -/
structure DateTime where
  month : Nat
  year : Nat
  weekday : Nat
  absTime : Int
deriving DecidableEq

/-- Zero-padded two-digit decimal rendering, modelling `strftime "%m"`.
Agrees with C strftime for the valid month range 1..12. -/
def pad2 (n : Nat) : String :=
  String.mk [Nat.digitChar ((n / 10) % 10), Nat.digitChar (n % 10)]

/-- Zero-padded four-digit decimal rendering, modelling `strftime "%Y"`.
Agrees with C strftime for four-digit years 1000..9999. -/
def pad4 (n : Nat) : String :=
  String.mk [Nat.digitChar ((n / 1000) % 10), Nat.digitChar ((n / 100) % 10),
    Nat.digitChar ((n / 10) % 10), Nat.digitChar (n % 10)]

/-- Model of `now.strftime("%m%Y")`: month then year, no separator. -/
def strf_mmyyyy (d : DateTime) : String :=
  pad2 d.month ++ pad4 d.year

/-- Model of `now.strftime("%A")`: the full English weekday name,
indexed as Python `datetime.weekday()` (0 = Monday). -/
def weekdayName : Nat → String
  | 0 => "Monday"
  | 1 => "Tuesday"
  | 2 => "Wednesday"
  | 3 => "Thursday"
  | 4 => "Friday"
  | 5 => "Saturday"
  | 6 => "Sunday"
  | _ => ""

/-- Filesystem observations available to `create_backup_filename`:
`os.path.isdir` and `os.path.exists`, as functions of the queried path. -/
structure FSState where
  isDir : String → Bool
  pathExists : String → Bool

/-- The file name component computed at the top of `create_backup_filename`
(source lines 24-31): weekday-qualified when `add_weekday` is set. -/
def backup_basename (now : DateTime) (pfx : String) (add_weekday : Bool) : String :=
  let date_str := strf_mmyyyy now
  if add_weekday then
    weekdayName now.weekday ++ "_" ++ pfx ++ "_" ++ date_str ++ ".img"
  else
    pfx ++ "_" ++ date_str ++ ".img"

/-- Embedding of `create_backup_filename(path, prefix, add_weekday)`
(source lines 6-43).  `now` is the value returned by the internal
`datetime.now()` call; `fs` supplies the two filesystem checks.  The raised
`FileNotFoundError` is returned as `Except.error` carrying the message.
When the target file does not exist the literal suffix `,,1024` is appended
(source lines 40-41). -/
def create_backup_filename (fs : FSState) (now : DateTime) (path pfx : String)
    (add_weekday : Bool := false) : Except String String :=
  let filename := backup_basename now pfx add_weekday
  let full_path := path ++ "/" ++ filename
  if !(fs.isDir path) then
    .error ("Der angegebene Pfad existiert nicht oder ist kein Verzeichnis: " ++ path)
  else if !(fs.pathExists full_path) then
    .ok (full_path ++ ",,1024")
  else
    .ok full_path

/-- The value `create_backup_filename` returns when the directory check
passes: the joined path, with the size-hint suffix appended exactly when the
target does not yet exist. -/
def resolvedTarget (fs : FSState) (now : DateTime) (path pfx : String)
    (add_weekday : Bool) : String :=
  let full_path := path ++ "/" ++ backup_basename now pfx add_weekday
  if fs.pathExists full_path then full_path else full_path ++ ",,1024"

/-- Boolean test that the second character list starts with the first one:
helper for `str_endswith`, applied to reversed character lists there. -/
def charsStartWith : List Char → List Char → Bool
  | [], _ => true
  | _ :: _, [] => false
  | a :: as, b :: bs => a = b && charsStartWith as bs

/-- Model of the Python string method `endswith`: the second string is a
suffix of the first, decided over the character sequences. -/
def str_endswith (s suff : String) : Bool :=
  charsStartWith suff.data.reverse s.data.reverse

/-- One entry of the directory listing seen by `delete_old_images`, together
with the per-file environment faults the sweep may encounter: `statFails`
models `os.path.getmtime` raising `OSError`, `removeFails` models `os.remove`
raising `OSError` (the file then stays in place). -/
structure DirEntry where
  name : String
  mtime : Int
  statFails : Bool
  removeFails : Bool
deriving DecidableEq

/-- Number of seconds in `timedelta(days=365)`. -/
def retentionSeconds : Int := 365 * 86400

/-- The loop body of `delete_old_images` (source lines 63-76), processed in
listing order.  Returns the entries still present and the removed paths.
A per-file `OSError` is caught (source lines 74-76): the entry stays and the
loop continues with the next entry. -/
def sweepLoop (path : String) (cutoff : Int) : List DirEntry → List DirEntry × List String
  | [] => ([], [])
  | e :: rest =>
    let tail := sweepLoop path cutoff rest
    if str_endswith e.name ".img" then
      if e.statFails then (e :: tail.1, tail.2)
      else if e.mtime < cutoff then
        if e.removeFails then (e :: tail.1, tail.2)
        else (tail.1, (path ++ "/" ++ e.name) :: tail.2)
      else (e :: tail.1, tail.2)
    else (e :: tail.1, tail.2)

/-- Embedding of `delete_old_images(path)` (source lines 45-76).  `isDirB` is
the `os.path.isdir` observation, `nowAbs` the `datetime.now()` sample in POSIX
seconds, `entries` the `os.listdir` result.  The raised `FileNotFoundError`
is returned as `Except.error`; otherwise the sweep outcome is returned. -/
def delete_old_images (isDirB : Bool) (nowAbs : Int) (path : String)
    (entries : List DirEntry) : Except String (List DirEntry × List String) :=
  if !isDirB then
    .error ("Der Pfad \x27" ++ path ++ "\x27 ist kein gültiges Verzeichnis.")
  else
    .ok (sweepLoop path (nowAbs - retentionSeconds) entries)

/-- Outcome of the `subprocess.run` invocation inside `run_image_backup`:
normal completion with a return code and captured streams, a raised
`FileNotFoundError` (tool binary absent), or a raised
`subprocess.SubprocessError` carrying its message. -/
inductive SubprocessOutcome where
  | completed (returncode : Int) (stdout stderr : String)
  | fileNotFound
  | subprocessError (msg : String)
deriving DecidableEq

/-- Embedding of `run_image_backup(backup_filename)` (source lines 78-127).
The (success, stdout, stderr) triple is computed from the subprocess outcome;
both exception handlers return data (source lines 118-127), so the function
is total.  Console printing and the best-effort `logger` relay are effects
with no bearing on the returned value and are not modelled. -/
def run_image_backup (o : SubprocessOutcome) : Bool × String × String :=
  match o with
  | .completed rc out err => if rc ≠ 0 then (false, out, err) else (true, out, err)
  | .fileNotFound =>
    (false, "", "Fehler: Das Programm \x27image-backup\x27 wurde nicht gefunden.")
  | .subprocessError e =>
    (false, "", "Fehler bei der Ausführung von image-backup: " ++ e)

/-- Failure classes named by the specification for an execution attempt. -/
inductive FailureKind where
  | toolNotFound
  | nonZeroExit
  | transportError
deriving DecidableEq

/-- Specification-side classifier of an execution outcome, written from the
outcome table of the Execution Gateway contract: exit status zero means
success (no failure kind), non-zero means NonZeroExit, an absent tool binary
means ToolNotFound, any other subprocess-layer fault means TransportError.
Used only to compare against `run_image_backup`. -/
def specClassify : SubprocessOutcome → Option FailureKind
  | .completed rc _ _ => if rc = 0 then none else some .nonZeroExit
  | .fileNotFound => some .toolNotFound
  | .subprocessError _ => some .transportError

/-- Arguments of one `send_error_email` invocation (source lines 129-151).
The function itself swallows every exception of the mail transport, so an
invocation is fully described by its arguments. -/
structure EmailMsg where
  errorMessage : String
  stdoutOutput : String
  stderrOutput : String
deriving DecidableEq

/-- The plain-text body `send_error_email` composes (source line 141). -/
def email_body (m : EmailMsg) : String :=
  m.errorMessage ++ "\n\nSTDOUT:\n" ++ m.stdoutOutput ++ "\n\nSTDERR:\n" ++ m.stderrOutput

/-- Environment of one execution of `main` (source lines 153-217): the
command line and one field per impure observation, in program order.
`existsCheck` and `isDirCheck` are the two path checks in `main` itself;
`fs1`/`now0` are the observations of the primary `create_backup_filename`
call, `sweepDirOk`/`now1`/`entries` those of `delete_old_images`,
`run1` the primary subprocess outcome, `fs2`/`now2` the observations of the
fallback `create_backup_filename` call, and `run2` the fallback subprocess
outcome.  Distinct fields per call site reflect that the program re-samples
the clock and the filesystem at each call. -/
structure MainEnv where
  argv : List String
  existsCheck : Bool
  isDirCheck : Bool
  fs1 : FSState
  now0 : DateTime
  sweepDirOk : Bool
  now1 : DateTime
  entries : List DirEntry
  run1 : SubprocessOutcome
  fs2 : FSState
  now2 : DateTime
  run2 : SubprocessOutcome

/-- Observable outcome of one execution of `main`: the process exit status
(0 when `main` returns normally), the `send_error_email` invocations in
order, and the `run_image_backup` invocations (target file names) in order. -/
structure MainResult where
  exitCode : Nat
  emails : List EmailMsg
  backupCalls : List String
deriving DecidableEq

/-- Message prefix of the catch-all handler (source line 214). -/
def unexpectedMsg (e : String) : String :=
  "Ein unerwarteter Fehler ist aufgetreten: " ++ e

/-- Embedding of `main()` (source lines 153-217).  Mirrors the source order:
argument-count check, path-exists check, directory check, prefix check (each
failure alerts and exits 1; the argument-count failure exits 1 without an
alert), then the guarded sequence: primary naming, retention sweep, primary
attempt, and on failure the weekday-qualified fallback naming and attempt;
if both attempts fail one alert is sent with the fallback output and `main`
returns normally (exit 0).  A `FileNotFoundError` raised by either naming
call or by the sweep is caught by the handler on source lines 212-217, which
alerts once and exits 1. -/
def main (env : MainEnv) : MainResult :=
  if env.argv.length ≠ 3 then ⟨1, [], []⟩
  else
    let path := env.argv.getD 1 ""
    let pfx := env.argv.getD 2 ""
    if !env.existsCheck then
      ⟨1, [⟨"Fehler: Der Pfad \x27" ++ path ++ "\x27 existiert nicht.", "", ""⟩], []⟩
    else if !env.isDirCheck then
      ⟨1, [⟨"Fehler: \x27" ++ path ++ "\x27 ist kein Verzeichnis.", "", ""⟩], []⟩
    else if pfx = "" then
      ⟨1, [⟨"Fehler: Es wurde kein gültiges Prefix übergeben.", "", ""⟩], []⟩
    else
      match create_backup_filename env.fs1 env.now0 path pfx false with
      | .error e => ⟨1, [⟨unexpectedMsg e, "", ""⟩], []⟩
      | .ok backup_filename =>
        match delete_old_images env.sweepDirOk env.now1.absTime path env.entries with
        | .error e => ⟨1, [⟨unexpectedMsg e, "", ""⟩], []⟩
        | .ok _ =>
          let r1 := run_image_backup env.run1
          if r1.1 then ⟨0, [], [backup_filename]⟩
          else
            match create_backup_filename env.fs2 env.now2 path pfx true with
            | .error e => ⟨1, [⟨unexpectedMsg e, "", ""⟩], [backup_filename]⟩
            | .ok name2 =>
              let r2 := run_image_backup env.run2
              if r2.1 then ⟨0, [], [backup_filename, name2]⟩
              else
                ⟨0, [⟨"Fehler bei beiden Versuchen, das Backup durchzuführen.",
                      r2.2.1, r2.2.2⟩], [backup_filename, name2]⟩

/-- Whether one sweep iteration removes the entry, for the cutoff in use:
the name carries the artifact extension, reading the timestamp succeeds,
the file is older than the cutoff, and removing it succeeds. -/
def removesEntry (cutoff : Int) (e : DirEntry) : Bool :=
  str_endswith e.name ".img" && !e.statFails && decide (e.mtime < cutoff) && !e.removeFails

/-- Filesystem in which the directory check passes and no file exists. -/
def fsTrueAbsent : FSState := ⟨fun _ => true, fun _ => false⟩

/-- Filesystem in which the directory check passes and every file exists. -/
def fsTruePresent : FSState := ⟨fun _ => true, fun _ => true⟩

/-- Filesystem that differs from `fsTrueAbsent` only in that the single
path `/backups/db_102025.img` exists. -/
def fsOnlyTarget : FSState :=
  ⟨fun _ => true, fun s => decide (s = "/backups/db_102025.img")⟩

/-- A Wednesday in October 2025. -/
def nowOct : DateTime := ⟨10, 2025, 2, 1760000000⟩

/-- A Saturday in November 2025, later than `nowOct`. -/
def nowNov : DateTime := ⟨11, 2025, 5, 1762600000⟩

/-- Run in which the primary and the fallback attempt both exit non-zero,
with distinct captured outputs per attempt. -/
def envDoubleFail : MainEnv :=
  { argv := ["script.py", "/backups", "db"]
    existsCheck := true
    isDirCheck := true
    fs1 := fsTruePresent
    now0 := nowOct
    sweepDirOk := true
    now1 := nowOct
    entries := []
    run1 := .completed 1 "PRIMARY-OUT" "PRIMARY-ERR"
    fs2 := fsTruePresent
    now2 := nowOct
    run2 := .completed 1 "FALLBACK-OUT" "FALLBACK-ERR" }

/-- Run in which the primary attempt exits zero. -/
def envPrimaryOk : MainEnv :=
  { argv := ["script.py", "/backups", "db"]
    existsCheck := true
    isDirCheck := true
    fs1 := fsTruePresent
    now0 := nowOct
    sweepDirOk := true
    now1 := nowOct
    entries := []
    run1 := .completed 0 "done" ""
    fs2 := fsTruePresent
    now2 := nowOct
    run2 := .completed 0 "" "" }

/-- Run in which the primary attempt exits non-zero and the fallback attempt
fails because the tool binary is absent. -/
def envTotalFail : MainEnv :=
  { argv := ["script.py", "/backups", "db"]
    existsCheck := true
    isDirCheck := true
    fs1 := fsTruePresent
    now0 := nowOct
    sweepDirOk := true
    now1 := nowOct
    entries := []
    run1 := .completed 2 "OUT-A" "ERR-A"
    fs2 := fsTruePresent
    now2 := nowOct
    run2 := .fileNotFound }

/-- Run that reaches the fallback with the clock having crossed a month
boundary between the two naming calls. -/
def envMonthCross : MainEnv :=
  { argv := ["script.py", "/backups", "db"]
    existsCheck := true
    isDirCheck := true
    fs1 := fsTruePresent
    now0 := nowOct
    sweepDirOk := true
    now1 := nowOct
    entries := []
    run1 := .completed 1 "o1" "e1"
    fs2 := fsTruePresent
    now2 := nowNov
    run2 := .completed 0 "o2" "e2" }

/-- Sweep fixture from the specification: an artifact 400 days old. -/
def entryOldImg : DirEntry := ⟨"a.img", 100 * 86400, false, false⟩

/-- Sweep fixture from the specification: an artifact 10 days old. -/
def entryYoungImg : DirEntry := ⟨"b.img", 490 * 86400, false, false⟩

/-- Sweep fixture from the specification: a 400 day old non-artifact file. -/
def entryOldTxt : DirEntry := ⟨"c.txt", 100 * 86400, false, false⟩

/-- Sweep time for the fixtures: day 500 after the epoch. -/
def nowSweep : Int := 500 * 86400


theorem create_backup_filename_ok (fs : FSState) (now : DateTime) (path pfx : String)
    (wd : Bool) (h : fs.isDir path = true) :
    create_backup_filename fs now path pfx wd = .ok (resolvedTarget fs now path pfx wd) := by
  simp only [create_backup_filename, resolvedTarget, h]
  by_cases hx : fs.pathExists (path ++ "/" ++ backup_basename now pfx wd) = true <;>
    simp [hx]

theorem digitChar_mod_isDigit (x : Nat) : (Nat.digitChar (x % 10)).isDigit = true := by
  have h : x % 10 < 10 := Nat.mod_lt x (by norm_num)
  set k := x % 10 with hk
  interval_cases k <;> rfl

theorem str_endswith_append_img (x : String) : str_endswith (x ++ ".img") ".img" = true := by
  simp [str_endswith, String.data_append, charsStartWith]

theorem sweepLoop_eq (path : String) (cutoff : Int) (entries : List DirEntry) :
    sweepLoop path cutoff entries =
      (entries.filter (fun e => !(removesEntry cutoff e)),
       (entries.filter (removesEntry cutoff)).map (fun e => path ++ "/" ++ e.name)) := by
  induction entries with
  | nil => rfl
  | cons e rest ih =>
    simp only [sweepLoop, ih, List.filter_cons, List.map_cons]
    by_cases h1 : str_endswith e.name ".img" = true
    · by_cases h2 : e.statFails = true
      · simp [removesEntry, h1, h2]
      · by_cases h3 : e.mtime < cutoff
        · by_cases h4 : e.removeFails = true
          · simp [removesEntry, h1, h2, h3, h4]
          · simp [removesEntry, h1, h2, h3, h4]
        · simp [removesEntry, h1, h2, h3]
    · simp [removesEntry, h1]


/-- C9: during a sweep over an existing directory, per-file faults (an
OSError while reading a timestamp or deleting a file) are absorbed: the
sweep still returns normally, and every entry is handled independently of
the faults of the others — the outcome is a per-entry filter. -/
theorem C9_sweep_absorbs_per_file_faults (nowAbs : Int) (path : String)
    (entries : List DirEntry) :
    delete_old_images true nowAbs path entries =
      .ok (entries.filter (fun e => !(removesEntry (nowAbs - retentionSeconds) e)),
           (entries.filter (removesEntry (nowAbs - retentionSeconds))).map
             (fun e => path ++ "/" ++ e.name)) := by
  simp [delete_old_images, sweepLoop_eq]

/-- C5: when no per-file fault occurs, the sweep removes exactly the entries
whose name ends in .img and whose age exceeds 365 days, and keeps all
others. -/
theorem C5_retention_exact (nowAbs : Int) (path : String) (entries : List DirEntry)
    (h : ∀ e ∈ entries, e.statFails = false ∧ e.removeFails = false) :
    delete_old_images true nowAbs path entries =
      .ok (entries.filter
             (fun e => !(str_endswith e.name ".img" && decide (nowAbs - e.mtime > retentionSeconds))),
           (entries.filter
             (fun e => str_endswith e.name ".img" && decide (nowAbs - e.mtime > retentionSeconds))).map
             (fun e => path ++ "/" ++ e.name)) := by
  have hpt : ∀ e ∈ entries,
      removesEntry (nowAbs - retentionSeconds) e =
        (str_endswith e.name ".img" && decide (nowAbs - e.mtime > retentionSeconds)) := by
    intro e he
    obtain ⟨hs, hr⟩ := h e he
    simp only [removesEntry, hs, hr, Bool.not_false, Bool.and_true]
    by_cases hw : str_endswith e.name ".img" = true
    · simp only [hw, Bool.true_and]
      exact decide_eq_decide.mpr (by omega)
    · simp [Bool.of_not_eq_true hw]
  have h1 : entries.filter (fun e => !(removesEntry (nowAbs - retentionSeconds) e)) =
      entries.filter
        (fun e => !(str_endswith e.name ".img" && decide (nowAbs - e.mtime > retentionSeconds))) :=
    List.filter_congr (fun e he => by rw [hpt e he])
  have h2 : entries.filter (removesEntry (nowAbs - retentionSeconds)) =
      entries.filter
        (fun e => str_endswith e.name ".img" && decide (nowAbs - e.mtime > retentionSeconds)) :=
    List.filter_congr (fun e he => by rw [hpt e he])
  simp only [delete_old_images, Bool.not_true, ite_false, sweepLoop_eq, h1, h2]
  simp

theorem C5_witness :
    delete_old_images true nowSweep "/backups" [entryOldImg, entryYoungImg, entryOldTxt] =
      .ok ([entryYoungImg, entryOldTxt], ["/backups/a.img"]) := by
  have h := C5_retention_exact nowSweep "/backups" [entryOldImg, entryYoungImg, entryOldTxt]
    (by decide)
  exact h.trans (by rfl)


/-- C6: run_image_backup returns failure as data and classifies the outcome
exactly as the specification table prescribes: exit status zero is the one
success, a non-zero exit is NonZeroExit, an absent tool binary is
ToolNotFound, and any other subprocess-layer fault is TransportError. -/
theorem C6_classification (o : SubprocessOutcome) :
    (run_image_backup o).1 = (specClassify o).isNone ∧
    (specClassify o = some FailureKind.toolNotFound ↔ o = SubprocessOutcome.fileNotFound) ∧
    (specClassify o = some FailureKind.transportError ↔
      ∃ e, o = SubprocessOutcome.subprocessError e) ∧
    (specClassify o = some FailureKind.nonZeroExit ↔
      ∃ rc out err, rc ≠ 0 ∧ o = SubprocessOutcome.completed rc out err) := by
  rcases o with ⟨rc, out, err⟩ | _ | e
  · by_cases h : rc = 0
    · simp [run_image_backup, specClassify, h]
    · simp only [run_image_backup, specClassify, if_neg h, if_pos h]
      refine ⟨by simp [h], by simp, by simp, ?_⟩
      constructor
      · intro _; exact ⟨rc, out, err, h, rfl⟩
      · intro _; trivial
  · simp [run_image_backup, specClassify]
  · simp [run_image_backup, specClassify]

/-- C10: in every execution of main, send_error_email is invoked at most
once. -/
theorem C10_at_most_one_email (env : MainEnv) : (main env).emails.length ≤ 1 := by
  unfold main
  dsimp only
  repeat' split
  all_goals simp


/-- C2: when the preconditions pass and the primary attempt reports success,
main makes exactly one execution call and sends no alert email. -/
theorem C2_primary_success_single_call (env : MainEnv) (s p x : String)
    (hargv : env.argv = [s, p, x]) (hx : x ≠ "")
    (hex : env.existsCheck = true) (hdir : env.isDirCheck = true)
    (hfs1 : env.fs1.isDir p = true) (hsw : env.sweepDirOk = true)
    (hr1 : (run_image_backup env.run1).1 = true) :
    main env = ⟨0, [], [resolvedTarget env.fs1 env.now0 p x false]⟩ := by
  simp only [main, hargv, hex, hdir, hsw, Bool.not_true, List.length_cons, List.length_nil,
    List.getD_cons_zero, List.getD_cons_succ, ite_false, if_neg hx]
  rw [create_backup_filename_ok env.fs1 env.now0 p x false hfs1]
  simp [delete_old_images, hr1]


theorem C2_witness :
    main envPrimaryOk = ⟨0, [], ["/backups/db_102025.img"]⟩ :=
  (C2_primary_success_single_call envPrimaryOk "script.py" "/backups" "db"
    rfl (by decide) rfl rfl rfl rfl rfl).trans (by rfl)

/-- C1 (amended): when the preconditions pass and the primary attempt fails,
main makes exactly one fallback attempt, named with the weekday-qualified
naming mode over the same directory and prefix, and when that attempt also
fails it invokes send_error_email exactly once, passing the stdout/stderr
captured from the fallback attempt. -/
theorem C1_double_failure_single_alert (env : MainEnv) (s p x : String)
    (hargv : env.argv = [s, p, x]) (hx : x ≠ "")
    (hex : env.existsCheck = true) (hdir : env.isDirCheck = true)
    (hfs1 : env.fs1.isDir p = true) (hsw : env.sweepDirOk = true)
    (hr1 : (run_image_backup env.run1).1 = false)
    (hfs2 : env.fs2.isDir p = true)
    (hr2 : (run_image_backup env.run2).1 = false) :
    main env = ⟨0,
      [⟨"Fehler bei beiden Versuchen, das Backup durchzuführen.",
        (run_image_backup env.run2).2.1, (run_image_backup env.run2).2.2⟩],
      [resolvedTarget env.fs1 env.now0 p x false,
       resolvedTarget env.fs2 env.now2 p x true]⟩ := by
  simp only [main, hargv, hex, hdir, hsw, Bool.not_true, List.length_cons, List.length_nil,
    List.getD_cons_zero, List.getD_cons_succ, ite_false, if_neg hx]
  rw [create_backup_filename_ok env.fs1 env.now0 p x false hfs1,
    create_backup_filename_ok env.fs2 env.now2 p x true hfs2]
  simp [delete_old_images, hr1, hr2]

theorem C1_witness :
    main envDoubleFail = ⟨0,
      [⟨"Fehler bei beiden Versuchen, das Backup durchzuführen.",
        "FALLBACK-OUT", "FALLBACK-ERR"⟩],
      ["/backups/db_102025.img", "/backups/Wednesday_db_102025.img"]⟩ :=
  (C1_double_failure_single_alert envDoubleFail "script.py" "/backups" "db"
    rfl (by decide) rfl rfl rfl rfl rfl rfl rfl).trans (by rfl)

set_option maxRecDepth 8192 in
/-- C1 (counterexample): in the concrete double-failure run, the single
alert email carries only the fallback attempt output: the stdout captured
from the primary attempt appears nowhere in the email body, so the alert is
not invoked with both attempts aggregated stdout/stderr context. -/
theorem C1_counterexample :
    (main envDoubleFail).emails =
      [⟨"Fehler bei beiden Versuchen, das Backup durchzuführen.",
        "FALLBACK-OUT", "FALLBACK-ERR"⟩] ∧
    (run_image_backup envDoubleFail.run1).2.1 = "PRIMARY-OUT" ∧
    ¬ ("PRIMARY-OUT".data <:+:
        (email_body ⟨"Fehler bei beiden Versuchen, das Backup durchzuführen.",
          "FALLBACK-OUT", "FALLBACK-ERR"⟩).data) :=
  ⟨by rfl, by rfl, by decide⟩


/-- C8 (amended): every run that reaches the fallback derives both artifact
names from the same directory and prefix, but each naming call samples the
clock afresh: the primary name is derived from the sample now0 of the first
call and the fallback name from the later sample now2 of the second call. -/
theorem C8_fallback_naming_inputs (env : MainEnv) (s p x : String)
    (hargv : env.argv = [s, p, x]) (hx : x ≠ "")
    (hex : env.existsCheck = true) (hdir : env.isDirCheck = true)
    (hfs1 : env.fs1.isDir p = true) (hsw : env.sweepDirOk = true)
    (hr1 : (run_image_backup env.run1).1 = false)
    (hfs2 : env.fs2.isDir p = true) :
    (main env).backupCalls =
      [resolvedTarget env.fs1 env.now0 p x false,
       resolvedTarget env.fs2 env.now2 p x true] := by
  simp only [main, hargv, hex, hdir, hsw, Bool.not_true, List.length_cons, List.length_nil,
    List.getD_cons_zero, List.getD_cons_succ, ite_false, if_neg hx]
  rw [create_backup_filename_ok env.fs1 env.now0 p x false hfs1,
    create_backup_filename_ok env.fs2 env.now2 p x true hfs2]
  by_cases h2 : (run_image_backup env.run2).1 = true <;>
    simp [delete_old_images, hr1, h2]

theorem C8_witness :
    (main envMonthCross).backupCalls =
      ["/backups/db_102025.img", "/backups/Saturday_db_112025.img"] :=
  (C8_fallback_naming_inputs envMonthCross "script.py" "/backups" "db"
    rfl (by decide) rfl rfl rfl rfl rfl rfl).trans (by rfl)

/-- C8 (counterexample): in a run whose fallback naming happens after the
clock crossed from October to November, the two execution calls use names
with different date components, so they are not derived from one identical
timestamp. -/
theorem C8_counterexample :
    (main envMonthCross).backupCalls =
      ["/backups/db_102025.img", "/backups/Saturday_db_112025.img"] ∧
    strf_mmyyyy envMonthCross.now0 ≠ strf_mmyyyy envMonthCross.now2 :=
  ⟨by rfl, by decide⟩

/-- C3: in the concrete run where the primary attempt exits non-zero and the
fallback attempt fails because the tool is absent, main sends the one alert
and then returns normally, so the process terminates with exit status 0 and
not, as the specification requires, with a non-zero status. -/
theorem C3_total_failure_exits_zero :
    (run_image_backup envTotalFail.run1).1 = false ∧
    (run_image_backup envTotalFail.run2).1 = false ∧
    (main envTotalFail).exitCode = 0 ∧
    (main envTotalFail).emails.length = 1 :=
  ⟨by rfl, by rfl, by rfl, by rfl⟩


theorem str_endswith_of_data (s : String) (l : List Char)
    (h : s.data = l ++ ['.', 'i', 'm', 'g']) : str_endswith s ".img" = true := by
  simp [str_endswith, h, List.reverse_append, charsStartWith]

/-- C4 (amended): for an existing directory and non-empty prefix, the plain
naming mode returns the joined path of the name prefix_MMYYYY.img, whose
date component is exactly six decimal digits, with the literal suffix
,,1024 appended exactly when the target file does not already exist; in
particular the result ends in .img precisely when the target exists. -/
theorem C4_plain_name_format (fs : FSState) (now : DateTime) (path pfx : String)
    (hdir : fs.isDir path = true) (hpfx : pfx ≠ "")
    (hm1 : 1 ≤ now.month) (hm2 : now.month ≤ 12)
    (hy1 : 1000 ≤ now.year) (hy2 : now.year ≤ 9999) :
    create_backup_filename fs now path pfx false =
      .ok ((path ++ "/" ++ backup_basename now pfx false) ++
        (if fs.pathExists (path ++ "/" ++ backup_basename now pfx false)
          then "" else ",,1024")) ∧
    backup_basename now pfx false = pfx ++ "_" ++ strf_mmyyyy now ++ ".img" ∧
    (strf_mmyyyy now).length = 6 ∧
    (∀ c ∈ (strf_mmyyyy now).data, c.isDigit = true) ∧
    (fs.pathExists (path ++ "/" ++ backup_basename now pfx false) = true →
      str_endswith ((path ++ "/" ++ backup_basename now pfx false) ++
        (if fs.pathExists (path ++ "/" ++ backup_basename now pfx false)
          then "" else ",,1024")) ".img" = true) := by
  refine ⟨?_, ?_, ?_, ?_, ?_⟩
  · rw [create_backup_filename_ok fs now path pfx false hdir]
    simp only [resolvedTarget]
    by_cases hx : fs.pathExists (path ++ "/" ++ backup_basename now pfx false) = true
    · simp [hx]
    · simp [Bool.of_not_eq_true hx]
  · simp [backup_basename]
  · simp [strf_mmyyyy, pad2, pad4, String.length_append, String.length_mk]
  · intro c hc
    simp only [strf_mmyyyy, pad2, pad4, String.data_append] at hc
    simp only [List.mem_append, List.mem_cons, List.not_mem_nil, or_false] at hc
    rcases hc with (h | h) | (h | h | h | h) <;> subst h <;> exact digitChar_mod_isDigit _
  · intro hx
    simp only [hx, if_true]
    refine str_endswith_of_data _
      (path.data ++ "/".data ++ pfx.data ++ "_".data ++ (strf_mmyyyy now).data) ?_
    simp [String.data_append, backup_basename, List.append_assoc]


theorem C4_witness :
    create_backup_filename fsTruePresent nowOct "/backups" "db" false =
      .ok "/backups/db_102025.img" ∧
    strf_mmyyyy nowOct = "102025" ∧
    str_endswith "/backups/db_102025.img" ".img" = true := by
  have h := C4_plain_name_format fsTruePresent nowOct "/backups" "db"
    rfl (by decide) (by decide) (by decide) (by decide) (by decide)
  exact ⟨h.1.trans (by rfl), by rfl, by decide⟩

/-- C4 (counterexample): with an existing directory, the non-empty prefix db
and a target file that does not yet exist, the plain naming mode returns a
path carrying the size-hint suffix ,,1024, which does not end in .img. -/
theorem C4_counterexample :
    create_backup_filename fsTrueAbsent nowOct "/backups" "db" false =
      .ok "/backups/db_102025.img,,1024" ∧
    str_endswith "/backups/db_102025.img,,1024" ".img" = false :=
  ⟨by rfl, by decide⟩

/-- C7 (amended): create_backup_filename does inspect the existence of the
target file: with the directory check passing, the state in which the target
exists yields the bare joined path, and the state in which it does not
yields the same path with the literal suffix ,,1024 appended, so the two
results differ exactly by that suffix. -/
theorem C7_existence_changes_suffix (fsA fsB : FSState) (now : DateTime)
    (path pfx : String) (wd : Bool)
    (hdA : fsA.isDir path = true) (hdB : fsB.isDir path = true)
    (hA : fsA.pathExists (path ++ "/" ++ backup_basename now pfx wd) = true)
    (hB : fsB.pathExists (path ++ "/" ++ backup_basename now pfx wd) = false) :
    create_backup_filename fsA now path pfx wd =
      .ok (path ++ "/" ++ backup_basename now pfx wd) ∧
    create_backup_filename fsB now path pfx wd =
      .ok ((path ++ "/" ++ backup_basename now pfx wd) ++ ",,1024") := by
  constructor
  · rw [create_backup_filename_ok fsA now path pfx wd hdA]
    simp [resolvedTarget, hA]
  · rw [create_backup_filename_ok fsB now path pfx wd hdB]
    simp [resolvedTarget, hB]

theorem C7_witness :
    create_backup_filename fsOnlyTarget nowOct "/backups" "db" false =
      .ok "/backups/db_102025.img" ∧
    create_backup_filename fsTrueAbsent nowOct "/backups" "db" false =
      .ok "/backups/db_102025.img,,1024" := by
  have h := C7_existence_changes_suffix fsOnlyTarget fsTrueAbsent nowOct "/backups" "db" false
    rfl rfl (by decide) rfl
  exact ⟨h.1.trans (by rfl), h.2.trans (by rfl)⟩

/-- C7 (counterexample): two filesystem states agreeing on the directory
check function and differing only in that the target path
/backups/db_102025.img exists in one and not in the other give different
results, so the function is not insensitive to the existence of the target
file. -/
theorem C7_counterexample :
    fsOnlyTarget.isDir = fsTrueAbsent.isDir ∧
    fsOnlyTarget.pathExists "/backups/db_102025.img" = true ∧
    fsTrueAbsent.pathExists "/backups/db_102025.img" = false ∧
    create_backup_filename fsOnlyTarget nowOct "/backups" "db" false =
      .ok "/backups/db_102025.img" ∧
    create_backup_filename fsTrueAbsent nowOct "/backups" "db" false =
      .ok "/backups/db_102025.img,,1024" ∧
    "/backups/db_102025.img" ≠ "/backups/db_102025.img,,1024" ∧
    (∀ s, s ≠ "/backups/db_102025.img" →
      fsOnlyTarget.pathExists s = fsTrueAbsent.pathExists s) :=
  ⟨rfl, by decide, rfl, by rfl, by rfl, by decide,
    fun s hs => by simp [fsOnlyTarget, fsTrueAbsent, hs]⟩

end BackupScript
